import Mathlib

set_option maxHeartbeats 1000000

set_option maxRecDepth 8000

/-!
Verification development for the node_error_monitor repository.

The monitor script (served standalone and also embedded verbatim inside the
injector) intercepts console errors, scans the document for framework error
overlays, and posts error events to the parent window. The injector is a
one-shot file utility. All definitions below are shallow embeddings of the
corresponding JavaScript functions; wall-clock timestamps and real timers are
environmental effects and are represented by counts of scheduled delays where
a claim depends on them.
-/

/-- Model of a JavaScript runtime value, as far as the monitor script inspects
values: strings, integral numbers, booleans, null, undefined, and host
objects. A host object carries its optional message property, the result of
JSON serialization of the object (none when serialization throws), and its
string coercion. Non-integral numbers are not constructed by any code path
the claims exercise. -/
inductive JSValue where
  | str (s : String)
  | int (n : Int)
  | bool (b : Bool)
  | null
  | undef
  | obj (message : Option JSValue) (json : Option String) (coerced : String)

/-- JavaScript typeof operator on the modelled values. -/
def jsTypeof : JSValue → String
  | JSValue.str _ => "string"
  | JSValue.int _ => "number"
  | JSValue.bool _ => "boolean"
  | JSValue.null => "object"
  | JSValue.undef => "undefined"
  | JSValue.obj _ _ _ => "object"

/-- JavaScript String(v) coercion on the modelled values. -/
def jsToString : JSValue → String
  | JSValue.str s => s
  | JSValue.int n => toString n
  | JSValue.bool b => if b then "true" else "false"
  | JSValue.null => "null"
  | JSValue.undef => "undefined"
  | JSValue.obj _ _ coerced => coerced

/-- JavaScript truthiness of the modelled values. -/
def jsTruthy : JSValue → Bool
  | JSValue.str s => s != ""
  | JSValue.int n => n != 0
  | JSValue.bool b => b
  | JSValue.null => false
  | JSValue.undef => false
  | JSValue.obj _ _ _ => true

/-- Whether a value is null or undefined (the nullish values tested by ??). -/
def jsNullish : JSValue → Bool
  | JSValue.null => true
  | JSValue.undef => true
  | _ => false

/-- Optional-chained property read v?.message: undefined on values without a
message property, the stored message (or undefined when absent) on objects. -/
def jsGetMessage : JSValue → JSValue
  | JSValue.obj m _ _ => m.getD JSValue.undef
  | _ => JSValue.undef

/-- Escape backslashes and double quotes, as JSON.stringify does on the
string contents the claims exercise. -/
def jsonEscape (s : String) : String :=
  String.mk (s.data.foldr
    (fun c acc =>
      if c = '"' then '\\' :: '"' :: acc
      else if c = '\\' then '\\' :: '\\' :: acc
      else c :: acc) [])

/-- Quote a string as a JSON string literal. -/
def jsonQuote (s : String) : String :=
  "\"" ++ jsonEscape s ++ "\""

/-- JSON.stringify on a modelled value. It returns undefined (not a string)
on undefined, throws on objects whose serialization is marked as failing,
and otherwise returns the JSON text as a string value. -/
def jsonStringify : JSValue → Except Unit JSValue
  | JSValue.str s => Except.ok (JSValue.str (jsonQuote s))
  | JSValue.int n => Except.ok (JSValue.str (toString n))
  | JSValue.bool b => Except.ok (JSValue.str (if b then "true" else "false"))
  | JSValue.null => Except.ok (JSValue.str ("null"))
  | JSValue.undef => Except.ok JSValue.undef
  | JSValue.obj _ json _ =>
    match json with
    | some s => Except.ok (JSValue.str s)
    | none => Except.error ()

/-- Whitespace characters recognised when parsing and when matching the
injector's whitespace-then-head regex. -/
def wsChar (c : Char) : Bool :=
  c = ' ' || c = '\n' || c = '\t' || c = '\r'

/-- Value of a list of decimal digit characters. -/
def digitsToNat (ds : List Char) : Nat :=
  ds.foldl (fun a c => a * 10 + (c.toNat - 48)) 0

/-- JavaScript parseInt on the string coercion of a value: skip leading
whitespace, optional sign, then the longest prefix of decimal digits; NaN
(none) when that prefix is empty. -/
def parseIntOpt (s : String) : Option Int :=
  let cs := s.data.dropWhile wsChar
  let signed : Bool × List Char :=
    match cs with
    | '-' :: r => (true, r)
    | '+' :: r => (false, r)
    | r => (false, r)
  let digits := signed.2.takeWhile Char.isDigit
  if digits = [] then none
  else some ((if signed.1 then -1 else 1) * (digitsToNat digits : Int))

/-- parseInt(arg).toString() as used by the %i and %d placeholders. -/
def jsParseIntToString (v : JSValue) : String :=
  match parseIntOpt (jsToString v) with
  | some n => toString n
  | none => "NaN"

/-- parseFloat(arg).toString() as used by the %f placeholder: parse an
optional sign, integer digits and an optional decimal fraction, then print
in normalized form (no leading or trailing zero padding). Exponents and
non-decimal input are outside the modelled domain. -/
def jsParseFloatToString (v : JSValue) : String :=
  let cs := (jsToString v).data.dropWhile wsChar
  let signed : Bool × List Char :=
    match cs with
    | '-' :: r => (true, r)
    | '+' :: r => (false, r)
    | r => (false, r)
  let intDigits := signed.2.takeWhile Char.isDigit
  let rest := signed.2.dropWhile Char.isDigit
  let fracDigits : List Char :=
    match rest with
    | '.' :: r => r.takeWhile Char.isDigit
    | _ => []
  if intDigits = [] ∧ fracDigits = [] then "NaN"
  else
    let intTrim := intDigits.dropWhile (fun c => c = '0')
    let fracTrim := (fracDigits.reverse.dropWhile (fun c => c = '0')).reverse
    let intStr := if intTrim = [] then "0" else String.mk intTrim
    let isZero := intTrim = [] ∧ fracTrim = []
    let signStr := if signed.1 ∧ ¬ isZero then "-" else ""
    signStr ++ intStr ++ (if fracTrim = [] then "" else "." ++ String.mk fracTrim)

/-- The placeholder characters matched by the formatter's regex. -/
def placeholderChars : List Char := ['s', 'i', 'd', 'f', 'o', 'O', 'c']

/-- Replacement produced for the %o and %O placeholders: JSON.stringify of
the argument, with a thrown serialization replaced by String(arg), and a
stringify result of undefined coerced to a string by String.replace. -/
def jsonReplaceResult (arg : JSValue) : String :=
  match jsonStringify arg with
  | Except.ok v => jsToString v
  | Except.error _ => jsToString arg

/-- Replacement text for one matched placeholder. The default branch (the
%c class member not handled by the switch) reproduces the matched text;
note the argument index was already advanced for it. -/
def placeholderRepl (c : Char) (arg : JSValue) : String :=
  match c with
  | 's' => jsToString arg
  | 'i' => jsParseIntToString arg
  | 'd' => jsParseIntToString arg
  | 'f' => jsParseFloatToString arg
  | 'o' => jsonReplaceResult arg
  | 'O' => jsonReplaceResult arg
  | _ => "%" ++ c.toString

/-- Left-to-right scan of the template performing the regex replacement
of %s %i %d %f %o %O %c, consuming one argument per match (an index past
the end reads undefined). Returns the replaced text and the number of
arguments consumed. -/
def replacePH (args : List JSValue) : List Char → Nat → String × Nat
  | [], i => ("", i)
  | ['%'], i => ("%", i)
  | '%' :: c :: rest, i =>
    if c ∈ placeholderChars then
      let arg := args.getD i JSValue.undef
      let t := replacePH args rest (i + 1)
      (placeholderRepl c arg ++ t.1, t.2)
    else
      let t := replacePH args (c :: rest) i
      ("%" ++ t.1, t.2)
  | ch :: rest, i =>
    let t := replacePH args rest i
    (ch.toString ++ t.1, t.2)

/-- Mapping applied to each argument left over after placeholder
consumption: objects contribute their message property when it is not
nullish, otherwise their JSON serialization (String(arg) when serialization
throws); other values contribute their string coercion. -/
def remainingArgMap (arg : JSValue) : JSValue :=
  if jsTypeof arg = "object" then
    let m := jsGetMessage arg
    if jsNullish m then
      match jsonStringify arg with
      | Except.ok v => v
      | Except.error _ => JSValue.str (jsToString arg)
    else m
  else JSValue.str (jsToString arg)

/-- Array.prototype.join element coercion: null and undefined join as the
empty string, all other values as their string coercion. -/
def joinElemString (v : JSValue) : String :=
  match v with
  | JSValue.null => ""
  | JSValue.undef => ""
  | v => jsToString v

/-- Space-separated join of values with JavaScript join coercion. -/
def jsArrayJoinSpace (vs : List JSValue) : String :=
  String.intercalate (" ") (vs.map joinElemString)

/-- Shallow embedding of formatMessageWithPlaceholders: a non-string
template falls back to the space-joined string coercion of all arguments
including the template; a string template has its placeholders substituted
and the unconsumed arguments appended after a space. -/
def formatMessageWithPlaceholders (template : JSValue) (args : List JSValue) : String :=
  match template with
  | JSValue.str t =>
    let r := replacePH args t.data 0
    let remaining := (args.drop r.2).map remainingArgMap
    r.1 ++ (if remaining.length > 0 then " " ++ jsArrayJoinSpace remaining else "")
  | template => String.intercalate (" ") ((template :: args).map jsToString)

/-- A DOM element inside an overlay's shadow tree. Its markup field is the
string an XMLSerializer produces for it. -/
structure DomElement where
  markup : String
deriving DecidableEq

/-- A shadow root, modelled by the element its querySelector for a div
returns in the static document (none when no such element exists). -/
structure DomShadow where
  headerDiv : Option DomElement
deriving DecidableEq

/-- A nextjs-portal custom element; its shadowRoot is none when the portal
has no open shadow root attached. -/
structure DomPortal where
  shadowRoot : Option DomShadow
deriving DecidableEq

/-- The document, reduced to the list returned by
document.querySelectorAll for the nextjs-portal selector, in order. -/
structure DomDoc where
  portals : List DomPortal
deriving DecidableEq

/-- One polling step of waitForHeaderElement: the count counts remaining
retries, the second argument is the index of the current querySelector
call, and the query function gives the result of the poll at each index.
Returns the resolved value together with the total number of querySelector
calls performed (each call after the first happens after one 200ms delay). -/
def waitCheck (query : Nat → Option DomElement) : Nat → Nat → Option DomElement × Nat
  | 0, idx => (query idx, idx + 1)
  | n + 1, idx =>
    let el := query idx
    if el.isSome then (el, idx + 1) else waitCheck query n (idx + 1)

/-- Shallow embedding of waitForHeaderElement: poll the shadow root, resolve
with the element as soon as one is found or with the final query result once
the retry budget is spent. The promise always resolves; the second component
counts the querySelector calls performed. -/
def waitForHeaderElement (query : Nat → Option DomElement) (retries : Nat) :
    Option DomElement × Nat :=
  waitCheck query retries 0

/-- The delay, in milliseconds, between consecutive polls (the default
delay argument). -/
def pollDelayMs : Nat := 200

/-- The default retry budget of waitForHeaderElement. -/
def defaultRetries : Nat := 10

/-- An error event as passed to sendToWebhook. The timestamp field of the
source is a wall-clock read and is left out of the embedded payload. -/
inductive ErrorEvent where
  | dom (markup : String)
  | console (method : String) (message : JSValue) (argsJson : String) (isServer : Bool)

/-- Loop body of checkDomErrors over the portal list: portals without a
shadow root are skipped; for the first shadow whose header wait resolves
with an element, one DOM event carrying the serialized markup is sent and
the scan returns true immediately; when no portal qualifies the scan
returns false having sent nothing. -/
def checkPortals : List DomPortal → Bool × List ErrorEvent
  | [] => (false, [])
  | p :: rest =>
    match p.shadowRoot with
    | none => checkPortals rest
    | some sh =>
      match (waitForHeaderElement (fun _ => sh.headerDiv) defaultRetries).1 with
      | some header => (true, [ErrorEvent.dom header.markup])
      | none => checkPortals rest

/-- Shallow embedding of checkDomErrors: scan the document's portal list.
Returns whether a DOM error was found and sent, with the list of webhook
payloads produced. -/
def checkDomErrors (doc : DomDoc) : Bool × List ErrorEvent :=
  checkPortals doc.portals

/-- Header element produced by the scan: the header of the first portal
that has a shadow root containing one. -/
def firstHeader : List DomPortal → Option DomElement
  | [] => none
  | p :: rest =>
    match p.shadowRoot with
    | none => firstHeader rest
    | some sh =>
      match sh.headerDiv with
      | some h => some h
      | none => firstHeader rest

/-- Whether one portal would satisfy the scan on its own: it has a shadow
root whose header query resolves with an element. -/
def portalQualifies (p : DomPortal) : Bool :=
  match p.shadowRoot with
  | some sh => sh.headerDiv.isSome
  | none => false

/-- Serialization applied to each console argument before reporting:
objects (including null) are JSON serialized, with String(arg) substituted
when serialization throws; other values are string coerced. -/
def serializeArg (arg : JSValue) : String :=
  if jsTypeof arg = "object" then
    match jsonStringify arg with
    | Except.ok v => jsToString v
    | Except.error _ => jsToString arg
  else jsToString arg

/-- JSON.stringify of the array of serialized argument strings. -/
def jsonStringifyStringList (xs : List String) : String :=
  "[" ++ String.intercalate (",") (xs.map jsonQuote) ++ "]"

/-- Shallow embedding of handleConsoleError: non-error methods return
undefined immediately; otherwise the DOM is checked first, and only when no
DOM error was found is a console event sent carrying the message, the JSON
serialization of the arguments, and isServer false. The async function has
no return statement with a value, so its resolved value is undefined in
every branch. -/
def handleConsoleError (doc : DomDoc) (method : String) (message : JSValue)
    (args : List JSValue) : JSValue × List ErrorEvent :=
  if method ≠ "error" then (JSValue.undef, [])
  else
    let r := checkDomErrors doc
    if ¬ r.1 then
      (JSValue.undef,
        r.2 ++ [ErrorEvent.console method message
          (jsonStringifyStringList (args.map serializeArg)) false])
    else (JSValue.undef, r.2)

/-- The formatted message the interceptor computes from its argument list:
formatMessageWithPlaceholders applied to the first argument (undefined when
absent) and the remaining arguments. -/
def formatArgsJS (args : List JSValue) : String :=
  formatMessageWithPlaceholders (args.getD 0 JSValue.undef) (args.drop 1)

/-- The deduplication key: a fixed tag followed by the first hundred
characters of the formatted message. -/
def dedupHash (formatted : String) : String :=
  "console-error-" ++ formatted.take 100

/-- Shallow embedding of the wrapped console.error function installed by
setupConsoleInterceptors, acting on the stored last-error hash: format the
arguments, compute the dedup key, and when it differs from the stored hash
store it and run handleConsoleError; otherwise do nothing. Returns the new
stored hash, whether the detection flow was triggered, and the webhook
payloads produced. The original console method is invoked with the
arguments afterwards in both cases. -/
def interceptedConsoleError (doc : DomDoc) (lastHash : String)
    (args : List JSValue) : String × Bool × List ErrorEvent :=
  let formatted := formatArgsJS args
  let errorHash := dedupHash formatted
  if errorHash ≠ lastHash then
    (errorHash, true, (handleConsoleError doc ("error") (JSValue.str formatted) args).2)
  else (lastHash, false, [])

/-- The message sendErrorManually extracts from its argument: the message
property when it is truthy, otherwise the string coercion of the value. -/
def extractedMessage (error : JSValue) : JSValue :=
  let m := jsGetMessage error
  if jsTruthy m then m else JSValue.str (jsToString error)

/-- Shallow embedding of sendErrorManually, the sendError operation of the
public API: extract a message and pass it to handleConsoleError with the
original value as the single argument, returning that call's result. The
typeof window guard is statically false in the browser, and the modelled
body is total so the catch branch is unreachable. -/
def sendErrorManually (doc : DomDoc) (error : JSValue) : JSValue × List ErrorEvent :=
  handleConsoleError doc ("error") (extractedMessage error) [error]

/-- Which function the console.error slot currently holds: the host's
original method or the monitor's wrapper. -/
inductive ConsoleImpl where
  | original
  | intercepted
deriving DecidableEq

/-- The mutable state of one monitor instance together with the pieces of
window state it manages: the initialization flag, the saved original
console methods (none until they are saved), the last reported error hash,
the function currently installed as console.error, the two global handler
slots, and whether the mutation observer is connected. -/
structure Monitor where
  isInitialized : Bool
  originalConsole : Option ConsoleImpl
  lastErrorHash : String
  consoleErrorImpl : ConsoleImpl
  onerrorHandler : Bool
  onunhandledrejectionHandler : Bool
  observerConnected : Bool
deriving DecidableEq

/-- A monitor instance as created by initEnhancedErrorMonitor before its
initialize call runs. -/
def freshMonitor : Monitor :=
  { isInitialized := false
    originalConsole := none
    lastErrorHash := ""
    consoleErrorImpl := ConsoleImpl.original
    onerrorHandler := false
    onunhandledrejectionHandler := false
    observerConnected := false }

/-- Shallow embedding of setupConsoleInterceptors: it returns without doing
anything when the isInitialized flag is set; otherwise it saves the current
console methods and installs the wrapper as console.error. -/
def setupConsoleInterceptors (s : Monitor) : Monitor :=
  if s.isInitialized then s
  else
    { s with
      originalConsole := some s.consoleErrorImpl
      consoleErrorImpl := ConsoleImpl.intercepted }

/-- Shallow embedding of setupErrorHandlers: assigns window.onerror and
window.onunhandledrejection. -/
def setupErrorHandlers (s : Monitor) : Monitor :=
  { s with onerrorHandler := true, onunhandledrejectionHandler := true }

/-- Shallow embedding of setupNextJsErrorObserver: connects the mutation
observer to the document body. -/
def setupObserver (s : Monitor) : Monitor :=
  { s with observerConnected := true }

/-- Shallow embedding of initialize: an already initialized monitor is left
unchanged; otherwise the flag is set first, then the three setup functions
run (so setupConsoleInterceptors sees the flag already set), and an initial
DOM scan runs, whose webhook payloads are returned alongside the state. -/
def initializeMonitor (doc : DomDoc) (s : Monitor) : Monitor × List ErrorEvent :=
  if s.isInitialized then (s, [])
  else
    let s1 := { s with isInitialized := true }
    let s2 := setupConsoleInterceptors s1
    let s3 := setupObserver (setupErrorHandlers s2)
    (s3, (checkDomErrors doc).2)

/-- Shallow embedding of the cleanup closure: console.error is restored
from the saved originals when they were saved, the global handlers are
nulled, the observer is disconnected, and the initialization flag and the
saved originals are reset. The lastErrorHash variable is not touched. -/
def cleanup (s : Monitor) : Monitor :=
  let s1 :=
    match s.originalConsole with
    | some orig => { s with consoleErrorImpl := orig }
    | none => s
  { s1 with
    onerrorHandler := false
    onunhandledrejectionHandler := false
    observerConnected := false
    isInitialized := false
    originalConsole := none }

/-- Effect of one console.error call on the window: when the original
method is installed the call only produces the host console output; when
the wrapper is installed the wrapper body runs (possibly updating the
stored hash and emitting webhook payloads) and the saved original method is
invoked with the same arguments afterwards. The third component lists the
argument vectors passed to the host console method. -/
def consoleErrorCall (doc : DomDoc) (s : Monitor) (args : List JSValue) :
    Monitor × List ErrorEvent × List (List JSValue) :=
  match s.consoleErrorImpl with
  | ConsoleImpl.original => (s, [], [args])
  | ConsoleImpl.intercepted =>
    let r := interceptedConsoleError doc s.lastErrorHash args
    ({ s with lastErrorHash := r.1 }, r.2.2, [args])

/-- The window environment sendToWebhook observes: whether window.parent is
a truthy reference, whether it is the window itself, and whether the
postMessage call raises. -/
structure WinEnv where
  parentTruthy : Bool
  parentIsSelf : Bool
  postThrows : Bool
deriving DecidableEq

/-- The condition guarding delivery: window.parent is truthy and is not the
window itself, i.e. the monitor runs in a nested browsing context with a
distinct parent. -/
def hasDistinctParent (w : WinEnv) : Bool :=
  w.parentTruthy && !w.parentIsSelf

/-- The message envelope posted to the parent: the payload spread into an
object tagged with a source field. -/
structure Envelope where
  source : String
  payload : ErrorEvent

/-- Observable effects of one sendToWebhook call. -/
inductive SendEffect where
  | posted (e : Envelope)
  | warnedNoParent
  | loggedSendFailure

/-- The try block of sendToWebhook: post the tagged envelope when a
distinct parent exists (raising when postMessage raises), otherwise log a
warning and skip delivery. -/
def sendToWebhookTry (w : WinEnv) (d : ErrorEvent) : Except Unit (List SendEffect) :=
  if hasDistinctParent w then
    if w.postThrows then Except.error ()
    else Except.ok [SendEffect.posted { source := "superengineer", payload := d }]
  else Except.ok [SendEffect.warnedNoParent]

/-- Shallow embedding of sendToWebhook: the try block's effects, with any
raised delivery failure caught and turned into a log entry, so the function
never propagates an exception to its caller. -/
def sendToWebhook (w : WinEnv) (d : ErrorEvent) : List SendEffect :=
  match sendToWebhookTry w d with
  | Except.ok effs => effs
  | Except.error _ => [SendEffect.loggedSendFailure]

/-- First index at which a pattern occurs as a sublist, if any. -/
def listFindSub (pat s : List Char) : Option Nat :=
  (List.range (s.length + 1)).find? (fun j => pat.isPrefixOf (s.drop j))

/-- Whether a string contains a pattern, as String.prototype.includes. -/
def strIncludes (s pat : String) : Bool :=
  (listFindSub pat.data s.data).isSome

/-- Replace the first occurrence of a literal pattern, leaving the string
unchanged when the pattern does not occur, as String.prototype.replace with
a non-global pattern. -/
def replaceFirstStr (s pat repl : String) : String :=
  match listFindSub pat.data s.data with
  | none => s
  | some j => String.mk (s.data.take j ++ repl.data ++ s.data.drop (j + pat.data.length))

/-- The marker line after which the injector inserts its configuration. -/
def isProdMarker : String :=
  "const isProd = process.env.NODE_ENV === \x27production\x27;"

/-- The configuration snippet inserted after the marker. -/
def errorMonitorConfig : String :=
  "\n// Error Monitor Configuration\nconst useLocalErrorMonitor = true; // Set to false for CDN\nconst errorMonitorSrc = useLocalErrorMonitor\n    ? \x27/error-monitor.js\x27 // Served from public folder\n    : \x27https://your-cdn-domain.com/error-monitor.js\x27; // Replace with your CDN URL\n"

/-- The script tag inserted before the closing head tag. -/
def scriptTagSnippet : String :=
  "                \n                \x7b/* Error Monitor - Load early to catch all errors */\x7d\n                <Script\n                    src=\x7berrorMonitorSrc\x7d\n                    strategy=\"beforeInteractive\"\n                    crossOrigin=\"anonymous\"\n                />"

/-- The closing head tag matched by the second replacement. -/
def headClose : String := "</head>"

/-- First index at which the closing head tag occurs with at least one
whitespace character directly before it; the regex of whitespace followed
by the closing tag can only match ending at such an occurrence. -/
def findHeadIdx (s : List Char) : Option Nat :=
  (List.range (s.length + 1)).find? (fun j =>
    headClose.data.isPrefixOf (s.drop j) && decide (0 < j) && wsChar (s.getD (j - 1) 'x'))

/-- Start of the maximal whitespace run ending at the given index. -/
def wsRunStart (s : List Char) : Nat → Nat
  | 0 => 0
  | j + 1 => if wsChar (s.getD j 'x') then wsRunStart s j else j + 1

/-- The replacement inserting the script tag before the closing head tag:
the matched whitespace run and tag are replaced by the run, the snippet, a
newline, the run again and the tag. A layout without a matching position is
left unchanged. -/
def insertScriptBeforeHead (content : String) : String :=
  match findHeadIdx content.data with
  | none => content
  | some j =>
    let m := wsRunStart content.data j
    let ws := (content.data.take j).drop m
    String.mk (content.data.take m ++ ws ++ scriptTagSnippet.data ++ [ '\n' ] ++ ws
      ++ headClose.data ++ content.data.drop (j + headClose.data.length))

/-- The full layout patch: configuration inserted after the marker line,
then the script tag inserted before the closing head tag. -/
def applyLayoutPatch (content : String) : String :=
  insertScriptBeforeHead
    (replaceFirstStr content isProdMarker (isProdMarker ++ "\n" ++ errorMonitorConfig))

/-- The file-system facts the injector branches on: whether the target app
directory exists, whether its public directory exists, and the layout file
contents when the layout file exists. -/
structure InjectorFS where
  appDirExists : Bool
  publicDirExists : Bool
  layoutFile : Option String
deriving DecidableEq

/-- The log lines the injector emits, by kind. -/
inductive InjLog where
  | createdMonitor
  | appDirMissing
  | copiedMonitor
  | alreadyPatched
  | layoutUpdated
  | layoutMissingWarning
  | setupComplete
deriving DecidableEq

/-- Outcome of one injector run: the process exit code, the emitted log
kinds in order, whether the public directory had to be created, and the
new layout contents when the layout file was rewritten. -/
structure InjectorResult where
  exitCode : Nat
  logs : List InjLog
  createdPublicDir : Bool
  wroteLayout : Option String
deriving DecidableEq

/-- Shallow embedding of the injector script: write the monitor source,
hard-fail with exit code one when the target app directory is missing,
otherwise create the public directory if needed and copy the script, then
patch the layout file: skip with a log when it already references the
monitor, rewrite it otherwise, and when the layout file does not exist log
a warning and skip the patch, completing with exit code zero. File
operations themselves are modelled as succeeding; the catch-all that exits
with code one on a raised file error is therefore unreachable here. -/
def runInjector (fs : InjectorFS) : InjectorResult :=
  if ¬ fs.appDirExists then
    { exitCode := 1
      logs := [InjLog.createdMonitor, InjLog.appDirMissing]
      createdPublicDir := false
      wroteLayout := none }
  else
    match fs.layoutFile with
    | some content =>
      if strIncludes content ("error-monitor.js") then
        { exitCode := 0
          logs := [InjLog.createdMonitor, InjLog.copiedMonitor,
            InjLog.alreadyPatched, InjLog.setupComplete]
          createdPublicDir := !fs.publicDirExists
          wroteLayout := none }
      else
        { exitCode := 0
          logs := [InjLog.createdMonitor, InjLog.copiedMonitor,
            InjLog.layoutUpdated, InjLog.setupComplete]
          createdPublicDir := !fs.publicDirExists
          wroteLayout := some (applyLayoutPatch content) }
    | none =>
      { exitCode := 0
        logs := [InjLog.createdMonitor, InjLog.copiedMonitor,
          InjLog.layoutMissingWarning, InjLog.setupComplete]
        createdPublicDir := !fs.publicDirExists
        wroteLayout := none }

/-- A document holding one overlay portal whose shadow root contains a
header element. -/
def docWithOverlay : DomDoc :=
  DomDoc.mk [DomPortal.mk (some (DomShadow.mk (some (DomElement.mk ("<div>x</div>")))))]

/-- A document with no overlay portal. -/
def docEmpty : DomDoc := DomDoc.mk []

/-- A document holding two qualifying overlay portals. -/
def docTwoOverlays : DomDoc :=
  DomDoc.mk
    [DomPortal.mk (some (DomShadow.mk (some (DomElement.mk ("<div>x</div>"))))),
     DomPortal.mk (some (DomShadow.mk (some (DomElement.mk ("<div>y</div>")))))]

/-- An error-like object with a truthy message property. -/
def errObj : JSValue :=
  JSValue.obj (some (JSValue.str ("boom"))) (some ("\x7b\x7d")) ("[object Object]")

/-- A query function under which no header element ever appears. -/
def noHeaderQuery : Nat → Option DomElement := fun _ => none

/-- A monitor state whose stored hash is the dedup key of the message used
in the C10 witness. -/
def sampleMonitorC10 : Monitor :=
  { freshMonitor with lastErrorHash := "console-error-boom" }

/-- A window environment with a distinct parent and working delivery. -/
def wDistinct : WinEnv := WinEnv.mk true false false

/-- A top-level window environment: the parent reference is the window
itself, so no distinct parent exists. -/
def wTop : WinEnv := WinEnv.mk true true false

/-- A window environment with a distinct parent whose postMessage raises. -/
def wThrowing : WinEnv := WinEnv.mk true false true

/-- Polling a shadow root whose header query constantly succeeds resolves
on the first check. -/
theorem waitCheck_const_some (e : DomElement) (n idx : Nat) :
    waitCheck (fun _ => some e) n idx = (some e, idx + 1) := by
  cases n <;> simp [waitCheck]

/-- Polling a shadow root whose header query constantly fails resolves with
none after one check per remaining retry plus the initial check. -/
theorem waitCheck_const_none : ∀ n idx : Nat,
    waitCheck (fun _ => (none : Option DomElement)) n idx = (none, idx + n + 1) := by
  intro n
  induction n with
  | zero => intro idx; simp [waitCheck]
  | succ n ih =>
    intro idx
    have hs : waitCheck (fun _ => (none : Option DomElement)) (n + 1) idx
        = waitCheck (fun _ => (none : Option DomElement)) n (idx + 1) := by
      simp [waitCheck]
    rw [hs, ih (idx + 1)]
    simp only [Prod.mk.injEq, true_and]
    omega

/-- The portal scan is determined by the first portal whose shadow root
holds a header element: it reports that header's markup and nothing else. -/
theorem checkPortals_eq (ps : List DomPortal) :
    checkPortals ps =
      match firstHeader ps with
      | some h => (true, [ErrorEvent.dom h.markup])
      | none => (false, []) := by
  induction ps with
  | nil => rfl
  | cons p rest ih =>
    cases hsh : p.shadowRoot with
    | none => simpa [checkPortals, firstHeader, hsh] using ih
    | some sh =>
      cases hd : sh.headerDiv with
      | none =>
        simpa [checkPortals, firstHeader, hsh, hd, waitForHeaderElement,
          waitCheck_const_none] using ih
      | some h =>
        simp [checkPortals, firstHeader, hsh, hd, waitForHeaderElement,
          waitCheck_const_some]

/-- Appending further portals after a list that already yields a header
does not change the header found. -/
theorem firstHeader_append (ps qs : List DomPortal) (h : DomElement)
    (hh : firstHeader ps = some h) : firstHeader (ps ++ qs) = some h := by
  induction ps with
  | nil => simp [firstHeader] at hh
  | cons p rest ih =>
    cases hsh : p.shadowRoot with
    | none =>
      simp [firstHeader, hsh] at hh ⊢
      exact ih hh
    | some sh =>
      cases hd : sh.headerDiv with
      | none =>
        simp [firstHeader, hsh, hd] at hh ⊢
        exact ih hh
      | some e =>
        simp [firstHeader, hsh, hd] at hh ⊢
        exact hh

/-- A list containing a qualifying portal yields a header. -/
theorem firstHeader_isSome_of_qualifies (ps : List DomPortal) (p : DomPortal)
    (hmem : p ∈ ps) (hq : portalQualifies p = true) :
    (firstHeader ps).isSome = true := by
  induction ps with
  | nil => cases hmem
  | cons q rest ih =>
    cases hsh : q.shadowRoot with
    | none =>
      simp only [firstHeader, hsh]
      rcases List.mem_cons.mp hmem with heq | hm
      · subst heq
        simp [portalQualifies, hsh] at hq
      · exact ih hm
    | some sh =>
      cases hd : sh.headerDiv with
      | none =>
        simp only [firstHeader, hsh, hd]
        rcases List.mem_cons.mp hmem with heq | hm
        · subst heq
          simp [portalQualifies, hsh, hd] at hq
        · exact ih hm
      | some e => simp [firstHeader, hsh, hd]

/-- Invariants of the polling loop: at least one and at most one-per-retry
plus one querySelector calls happen, the resolved value is the last query's
result, and every earlier query in the run came back empty. -/
theorem waitCheck_bounds (query : Nat → Option DomElement) :
    ∀ n idx : Nat,
      idx + 1 ≤ (waitCheck query n idx).2 ∧
      (waitCheck query n idx).2 ≤ idx + n + 1 ∧
      (waitCheck query n idx).1 = query ((waitCheck query n idx).2 - 1) ∧
      (∀ k, idx ≤ k → k < (waitCheck query n idx).2 - 1 → query k = none) := by
  intro n
  induction n with
  | zero =>
    intro idx
    refine ⟨by simp [waitCheck], by simp [waitCheck], by simp [waitCheck], ?_⟩
    intro k hk1 hk2
    simp [waitCheck] at hk2
    omega
  | succ n ih =>
    intro idx
    cases hq : query idx with
    | some e =>
      have hs : waitCheck query (n + 1) idx = (some e, idx + 1) := by
        simp [waitCheck, hq]
      refine ⟨by simp [hs], by simp [hs]; try omega, by simp [hs, hq], ?_⟩
      intro k hk1 hk2
      simp [hs] at hk2
      omega
    | none =>
      have hs : waitCheck query (n + 1) idx = waitCheck query n (idx + 1) := by
        simp [waitCheck, hq]
      obtain ⟨ih1, ih2, ih3, ih4⟩ := ih (idx + 1)
      rw [hs]
      refine ⟨by omega, by omega, ih3, ?_⟩
      intro k hk1 hk2
      rcases Nat.lt_or_ge k (idx + 1) with hlt | hge
      · have hk : k = idx := by omega
        subst hk
        exact hq
      · exact ih4 k hge hk2

/-- When every query within the retry budget comes back empty, the loop
resolves with none after exhausting the budget. -/
theorem waitCheck_exhaust (query : Nat → Option DomElement) :
    ∀ n idx : Nat, (∀ k, idx ≤ k → k ≤ idx + n → query k = none) →
      waitCheck query n idx = (none, idx + n + 1) := by
  intro n
  induction n with
  | zero =>
    intro idx h
    simp [waitCheck, h idx le_rfl (by omega)]
  | succ n ih =>
    intro idx h
    have hq : query idx = none := h idx le_rfl (by omega)
    have hs : waitCheck query (n + 1) idx = waitCheck query n (idx + 1) := by
      simp [waitCheck, hq]
    rw [hs, ih (idx + 1) (fun k hk1 hk2 => h k (by omega) (by omega))]
    simp only [Prod.mk.injEq, true_and]
    omega

/-- Claim C1: for every intercepted non-duplicate console.error occurrence
(an invocation of the wrapper installed by setupConsoleInterceptors whose
dedup key differs from the stored hash), if an overlay portal with a shadow
root is present whose header element resolves within the retry window,
exactly one DOM-type event carrying the serialized markup is sent and no
console-type event is sent for the occurrence; if no overlay is found,
exactly one console-type event is sent carrying the formatted message and
the serialized arguments. -/
theorem C1_detection_flow (doc : DomDoc) (lastHash : String) (args : List JSValue)
    (hdup : dedupHash (formatArgsJS args) ≠ lastHash) :
    (∀ h, firstHeader doc.portals = some h →
      (interceptedConsoleError doc lastHash args).2.2 = [ErrorEvent.dom h.markup]) ∧
    (firstHeader doc.portals = none →
      (interceptedConsoleError doc lastHash args).2.2 =
        [ErrorEvent.console ("error") (JSValue.str (formatArgsJS args))
          (jsonStringifyStringList (args.map serializeArg)) false]) := by
  constructor
  · intro h hh
    simp [interceptedConsoleError, hdup, handleConsoleError, checkDomErrors,
      checkPortals_eq, hh]
  · intro hh
    simp [interceptedConsoleError, hdup, handleConsoleError, checkDomErrors,
      checkPortals_eq, hh]

/-- Witness for C1 at concrete inputs: with an overlay present only the DOM
event is sent; with no overlay only the console event is sent. -/
theorem C1_witness :
    (interceptedConsoleError docWithOverlay "" [JSValue.str ("boom")]).2.2 =
      [ErrorEvent.dom ("<div>x</div>")] ∧
    (interceptedConsoleError docEmpty "" [JSValue.str ("boom")]).2.2 =
      [ErrorEvent.console ("error") (JSValue.str ("boom")) ("[\"boom\"]") false] :=
  ⟨(C1_detection_flow docWithOverlay "" [JSValue.str ("boom")] (by decide)).1
      (DomElement.mk ("<div>x</div>")) rfl,
   (C1_detection_flow docEmpty "" [JSValue.str ("boom")] (by decide)).2 rfl⟩

/-- Claim C2, evaluated at the failing input: after initialize runs on a
fresh monitor, console.error still holds the host's original method —
initialize sets the isInitialized flag before calling
setupConsoleInterceptors, whose guard therefore returns immediately — so a
console.error call triggers no detection flow, sends nothing, saves no
original console methods, and never updates the stored dedup hash. -/
theorem C2_console_error_never_intercepted (doc : DomDoc) (args : List JSValue) :
    ((initializeMonitor doc freshMonitor).1).consoleErrorImpl = ConsoleImpl.original ∧
    ((initializeMonitor doc freshMonitor).1).originalConsole = none ∧
    consoleErrorCall doc ((initializeMonitor doc freshMonitor).1) args
      = ((initializeMonitor doc freshMonitor).1, [], [args]) ∧
    ((initializeMonitor doc freshMonitor).1).lastErrorHash = "" :=
  ⟨rfl, rfl, rfl, rfl⟩

/-- Counterexample for Claim C3: with an overlay present the detection flow
finds and sends a DOM error, yet sendError's resolved value is undefined,
not the DOM-found flag the claim says it returns. -/
theorem C3_counterexample :
    (checkDomErrors docWithOverlay).1 = true ∧
    (sendErrorManually docWithOverlay errObj).1 = JSValue.undef ∧
    ¬ (sendErrorManually docWithOverlay errObj).1 = JSValue.bool true :=
  ⟨rfl, rfl, fun h => JSValue.noConfusion h⟩

/-- Claim C3 as amended: sendError extracts a message (the message property
when truthy, otherwise the string coercion), routes it through the same
DOM-first detection flow as an intercepted console error, and resolves with
undefined rather than reporting whether a DOM error was found. -/
theorem C3_sendError_flow (doc : DomDoc) (error : JSValue) :
    (sendErrorManually doc error).1 = JSValue.undef ∧
    (∀ h, firstHeader doc.portals = some h →
      (sendErrorManually doc error).2 = [ErrorEvent.dom h.markup]) ∧
    (firstHeader doc.portals = none →
      (sendErrorManually doc error).2 =
        [ErrorEvent.console ("error") (extractedMessage error)
          (jsonStringifyStringList ([error].map serializeArg)) false]) := by
  refine ⟨?_, ?_, ?_⟩
  · rcases hr : checkDomErrors doc with ⟨found, evts⟩
    cases found <;> simp [sendErrorManually, handleConsoleError, hr]
  · intro h hh
    simp [sendErrorManually, handleConsoleError, checkDomErrors, checkPortals_eq, hh]
  · intro hh
    simp [sendErrorManually, handleConsoleError, checkDomErrors, checkPortals_eq, hh]

/-- Witness for the amended C3 at concrete inputs: the flow sends the DOM
event when an overlay is present and the console event otherwise. -/
theorem C3_witness :
    (sendErrorManually docWithOverlay errObj).2 = [ErrorEvent.dom ("<div>x</div>")] ∧
    (sendErrorManually docEmpty errObj).2 =
      [ErrorEvent.console ("error") (JSValue.str ("boom")) ("[\"\x7b\x7d\"]") false] :=
  ⟨(C3_sendError_flow docWithOverlay errObj).2.1 (DomElement.mk ("<div>x</div>")) rfl,
   (C3_sendError_flow docEmpty errObj).2.2 rfl⟩

/-- Claim C4: every overlay scan sends at most one DOM-type event, returns
true exactly when it reported one, reports the first qualifying portal's
header markup, and ignores every portal after the first qualifying one. -/
theorem C4_single_dom_report (doc : DomDoc) :
    (checkDomErrors doc).2.length ≤ 1 ∧
    ((checkDomErrors doc).1 = true ↔ (checkDomErrors doc).2 ≠ []) ∧
    (∀ h, firstHeader doc.portals = some h →
      checkDomErrors doc = (true, [ErrorEvent.dom h.markup])) ∧
    (∀ ps qs, doc.portals = ps ++ qs →
      (∃ p ∈ ps, portalQualifies p = true) →
      checkDomErrors doc = checkDomErrors (DomDoc.mk ps)) := by
  refine ⟨?_, ?_, ?_, ?_⟩
  · cases hh : firstHeader doc.portals <;>
      simp [checkDomErrors, checkPortals_eq, hh]
  · cases hh : firstHeader doc.portals <;>
      simp [checkDomErrors, checkPortals_eq, hh]
  · intro h hh
    simp [checkDomErrors, checkPortals_eq, hh]
  · rintro ps qs hsplit ⟨p, hmem, hq⟩
    obtain ⟨h, hh⟩ :=
      Option.isSome_iff_exists.mp (firstHeader_isSome_of_qualifies ps p hmem hq)
    have happ := firstHeader_append ps qs h hh
    simp [checkDomErrors, hsplit, checkPortals_eq, hh, happ]

/-- Witness for C4 at a document with two qualifying overlays: only the
first overlay's header is reported, and dropping the second overlay leaves
the scan result unchanged. -/
theorem C4_witness :
    checkDomErrors docTwoOverlays = (true, [ErrorEvent.dom ("<div>x</div>")]) ∧
    checkDomErrors docTwoOverlays =
      checkDomErrors (DomDoc.mk
        [DomPortal.mk (some (DomShadow.mk (some (DomElement.mk ("<div>x</div>")))))]) :=
  ⟨(C4_single_dom_report docTwoOverlays).2.2.1 (DomElement.mk ("<div>x</div>")) rfl,
   (C4_single_dom_report docTwoOverlays).2.2.2
      [DomPortal.mk (some (DomShadow.mk (some (DomElement.mk ("<div>x</div>")))))]
      [DomPortal.mk (some (DomShadow.mk (some (DomElement.mk ("<div>y</div>")))))]
      rfl
      ⟨DomPortal.mk (some (DomShadow.mk (some (DomElement.mk ("<div>x</div>"))))),
        by simp, rfl⟩⟩

/-- Claim C5: the documented placeholder example formats as specified, and
for every call whose first argument is not a string the result is the
space-joined string coercion of all arguments including the first. -/
theorem C5_format_placeholders :
    formatMessageWithPlaceholders (JSValue.str ("Value: %s, Count: %d"))
      [JSValue.str ("foo"), JSValue.str ("3")] = "Value: foo, Count: 3" ∧
    ∀ (t : JSValue) (args : List JSValue), jsTypeof t ≠ "string" →
      formatMessageWithPlaceholders t args =
        String.intercalate (" ") ((t :: args).map jsToString) := by
  refine ⟨rfl, ?_⟩
  intro t args ht
  cases t <;> first | rfl | exact absurd rfl ht

/-- Witness for C5 at a non-string first argument. -/
theorem C5_witness :
    formatMessageWithPlaceholders (JSValue.int 5) [JSValue.null] = "5 null" :=
  (C5_format_placeholders).2 (JSValue.int 5) [JSValue.null] (by decide)

/-- Claim C7: delivery wraps every event in an envelope tagged with the
superengineer source and posts it exactly when a distinct parent window
exists; without one it warns and posts nothing; a raised delivery failure
is caught and logged, so sendToWebhook never propagates an exception. -/
theorem C7_webhook_delivery (w : WinEnv) (d : ErrorEvent) :
    (hasDistinctParent w = true → w.postThrows = false →
      sendToWebhook w d =
        [SendEffect.posted { source := "superengineer", payload := d }]) ∧
    (hasDistinctParent w = false → sendToWebhook w d = [SendEffect.warnedNoParent]) ∧
    (hasDistinctParent w = true → w.postThrows = true →
      sendToWebhook w d = [SendEffect.loggedSendFailure]) ∧
    (∀ e, SendEffect.posted e ∈ sendToWebhook w d →
      e.source = "superengineer" ∧ e.payload = d ∧
      hasDistinctParent w = true ∧ w.postThrows = false) := by
  refine ⟨?_, ?_, ?_, ?_⟩
  · intro h1 h2
    simp [sendToWebhook, sendToWebhookTry, h1, h2]
  · intro h1
    simp [sendToWebhook, sendToWebhookTry, h1]
  · intro h1 h2
    simp [sendToWebhook, sendToWebhookTry, h1, h2]
  · intro e he
    cases h1 : hasDistinctParent w with
    | false => simp [sendToWebhook, sendToWebhookTry, h1] at he
    | true =>
      cases h2 : w.postThrows with
      | true => simp [sendToWebhook, sendToWebhookTry, h1, h2] at he
      | false =>
        simp [sendToWebhook, sendToWebhookTry, h1, h2] at he
        subst he
        exact ⟨rfl, rfl, rfl, rfl⟩


/-- Witness for C7 at concrete window environments: delivery with a distinct
parent, the warning skip at a top-level window, and the caught failure. -/
theorem C7_witness :
    sendToWebhook wDistinct (ErrorEvent.dom ("<div>x</div>")) =
      [SendEffect.posted
        { source := "superengineer", payload := ErrorEvent.dom ("<div>x</div>") }] ∧
    sendToWebhook wTop (ErrorEvent.dom ("<div>x</div>")) =
      [SendEffect.warnedNoParent] ∧
    sendToWebhook wThrowing (ErrorEvent.dom ("<div>x</div>")) =
      [SendEffect.loggedSendFailure] :=
  ⟨(C7_webhook_delivery wDistinct (ErrorEvent.dom ("<div>x</div>"))).1 rfl rfl,
   (C7_webhook_delivery wTop (ErrorEvent.dom ("<div>x</div>"))).2.1 rfl,
   (C7_webhook_delivery wThrowing (ErrorEvent.dom ("<div>x</div>"))).2.2.1 rfl rfl⟩

/-- Claim C6: after cleanup runs on an initialized monitor, console.error
holds the host's original method, the global error and rejection handlers
are cleared, the observer is disconnected, the initialization flag and the
saved originals are reset so a fresh initialize proceeds again, and a
console.error call made afterwards sends no report and passes its arguments
to the host console unchanged. -/
theorem C6_cleanup_restores (doc : DomDoc) (args : List JSValue) :
    (cleanup ((initializeMonitor doc freshMonitor).1)).consoleErrorImpl
      = ConsoleImpl.original ∧
    (cleanup ((initializeMonitor doc freshMonitor).1)).onerrorHandler = false ∧
    (cleanup ((initializeMonitor doc freshMonitor).1)).onunhandledrejectionHandler
      = false ∧
    (cleanup ((initializeMonitor doc freshMonitor).1)).observerConnected = false ∧
    (cleanup ((initializeMonitor doc freshMonitor).1)).isInitialized = false ∧
    (cleanup ((initializeMonitor doc freshMonitor).1)).originalConsole = none ∧
    ((initializeMonitor doc
        (cleanup ((initializeMonitor doc freshMonitor).1))).1).isInitialized = true ∧
    ((initializeMonitor doc
        (cleanup ((initializeMonitor doc freshMonitor).1))).1).observerConnected
      = true ∧
    consoleErrorCall doc (cleanup ((initializeMonitor doc freshMonitor).1)) args
      = (cleanup ((initializeMonitor doc freshMonitor).1), [], [args]) :=
  ⟨rfl, rfl, rfl, rfl, rfl, rfl, rfl, rfl, rfl⟩

/-- Counterexample for Claim C8: when the header never appears, the wait
with the default budget of ten retries performs eleven querySelector polls,
not at most ten. -/
theorem C8_counterexample :
    (waitForHeaderElement noHeaderQuery defaultRetries).2 = 11 ∧
    ¬ (waitForHeaderElement noHeaderQuery defaultRetries).2 ≤ 10 :=
  ⟨rfl, by decide⟩

/-- Claim C8 as amended: the wait always resolves after at least one and at
most retries plus one polls (eleven at the default of ten retries), its
delayed re-polls are bounded by retries so the waiting time is at most
retries times the 200ms delay (about two seconds), it resolves with the
first poll that finds the element, and it resolves with none once the
retries are exhausted without a match. -/
theorem C8_wait_bounded (query : Nat → Option DomElement) (retries : Nat) :
    1 ≤ (waitForHeaderElement query retries).2 ∧
    (waitForHeaderElement query retries).2 ≤ retries + 1 ∧
    ((waitForHeaderElement query retries).2 - 1) * pollDelayMs
      ≤ retries * pollDelayMs ∧
    (waitForHeaderElement query retries).1 =
      query ((waitForHeaderElement query retries).2 - 1) ∧
    (∀ k, k < (waitForHeaderElement query retries).2 - 1 → query k = none) ∧
    ((∀ k, k ≤ retries → query k = none) →
      waitForHeaderElement query retries = (none, retries + 1)) := by
  simp only [waitForHeaderElement]
  obtain ⟨h1, h2, h3, h4⟩ := waitCheck_bounds query retries 0
  refine ⟨by omega, by omega, Nat.mul_le_mul (by omega) le_rfl, h3, ?_, ?_⟩
  · intro k hk
    exact h4 k (Nat.zero_le k) hk
  · intro hall
    have := waitCheck_exhaust query retries 0 (fun k hk1 hk2 => hall k (by omega))
    simpa using this

/-- Witness for the amended C8: with a header that never appears and two
retries, the wait resolves with none after three polls, and the earlier
polls returned none. -/
theorem C8_witness :
    waitForHeaderElement noHeaderQuery 2 = (none, 3) ∧ noHeaderQuery 0 = none :=
  ⟨(C8_wait_bounded noHeaderQuery 2).2.2.2.2.2 (fun k _ => rfl),
   (C8_wait_bounded noHeaderQuery 2).2.2.2.2.1 0 (by decide)⟩

/-- Claim C9: the injector exits with code one when the target application
directory is absent, and when the directory exists but the layout file is
absent it logs the missing-layout warning, writes no layout, and completes
with exit code zero. -/
theorem C9_injector_exit_codes (fs : InjectorFS) :
    (fs.appDirExists = false → (runInjector fs).exitCode = 1) ∧
    (fs.appDirExists = true → fs.layoutFile = none →
      (runInjector fs).exitCode = 0 ∧
      InjLog.layoutMissingWarning ∈ (runInjector fs).logs ∧
      (runInjector fs).wroteLayout = none) := by
  constructor
  · intro h
    simp [runInjector, h]
  · intro h1 h2
    simp [runInjector, h1, h2]

/-- Witness for C9 at concrete file systems: a missing app directory exits
with code one; an existing app directory with a missing layout completes
with code zero, the warning, and no layout write. -/
theorem C9_witness :
    (runInjector (InjectorFS.mk false false none)).exitCode = 1 ∧
    (runInjector (InjectorFS.mk true true none)).exitCode = 0 ∧
    InjLog.layoutMissingWarning ∈ (runInjector (InjectorFS.mk true true none)).logs ∧
    (runInjector (InjectorFS.mk true true none)).wroteLayout = none :=
  ⟨(C9_injector_exit_codes (InjectorFS.mk false false none)).1 rfl,
   ((C9_injector_exit_codes (InjectorFS.mk true true none)).2 rfl rfl).1,
   ((C9_injector_exit_codes (InjectorFS.mk true true none)).2 rfl rfl).2.1,
   ((C9_injector_exit_codes (InjectorFS.mk true true none)).2 rfl rfl).2.2⟩

/-- Claim C10: cleanup does not reset the dedup hash: it survives cleanup
and re-initialization unchanged, and a console.error occurrence whose
formatted message yields the stored dedup key is still suppressed by the
interceptor logic as a duplicate — no flow is triggered and no event is
sent — and the re-initialized system sends nothing for such a call. -/
theorem C10_dedup_hash_survives_cleanup (s : Monitor) (doc : DomDoc)
    (args : List JSValue)
    (hkey : dedupHash (formatArgsJS args) = s.lastErrorHash) :
    (cleanup s).lastErrorHash = s.lastErrorHash ∧
    ((initializeMonitor doc (cleanup s)).1).lastErrorHash = s.lastErrorHash ∧
    interceptedConsoleError doc
        ((initializeMonitor doc (cleanup s)).1).lastErrorHash args
      = (s.lastErrorHash, false, []) ∧
    (consoleErrorCall doc ((initializeMonitor doc (cleanup s)).1) args).2.1 = [] := by
  have h1 : (cleanup s).lastErrorHash = s.lastErrorHash := by
    cases hoc : s.originalConsole <;> simp [cleanup, hoc]
  have hini : (cleanup s).isInitialized = false := by
    cases hoc : s.originalConsole <;> simp [cleanup, hoc]
  have h2 : ((initializeMonitor doc (cleanup s)).1).lastErrorHash
      = s.lastErrorHash := by
    simp [initializeMonitor, hini, setupConsoleInterceptors, setupErrorHandlers,
      setupObserver, h1]
  have h3 : interceptedConsoleError doc s.lastErrorHash args
      = (s.lastErrorHash, false, []) := by
    simp [interceptedConsoleError, hkey]
  have h4 : interceptedConsoleError doc
      ((initializeMonitor doc (cleanup s)).1).lastErrorHash args
      = (s.lastErrorHash, false, []) := by
    rw [h2]
    exact h3
  refine ⟨h1, h2, h4, ?_⟩
  cases himpl : ((initializeMonitor doc (cleanup s)).1).consoleErrorImpl <;>
    simp [consoleErrorCall, himpl, h4]

/-- Witness for C10 at a concrete monitor whose stored hash matches the
incoming message's dedup key. -/
theorem C10_witness :
    (cleanup sampleMonitorC10).lastErrorHash = sampleMonitorC10.lastErrorHash ∧
    ((initializeMonitor docEmpty (cleanup sampleMonitorC10)).1).lastErrorHash
      = sampleMonitorC10.lastErrorHash ∧
    interceptedConsoleError docEmpty
        ((initializeMonitor docEmpty (cleanup sampleMonitorC10)).1).lastErrorHash
        [JSValue.str ("boom")]
      = (sampleMonitorC10.lastErrorHash, false, []) ∧
    (consoleErrorCall docEmpty
        ((initializeMonitor docEmpty (cleanup sampleMonitorC10)).1)
        [JSValue.str ("boom")]).2.1 = [] :=
  C10_dedup_hash_survives_cleanup sampleMonitorC10 docEmpty
    [JSValue.str ("boom")] rfl
